import Mathlib

/-!
Shallow embedding of the key-path resolution protocol of
`satpy/readers/netcdf_utils.py` (class `NetCDF4FileHandler`: `__getitem__`,
`__contains__`, `get`) and of the calibration dispatch of
`satpy/readers/hyc_l1.py` (`HYCL1FileHandler.calibrate`).

The underlying xarray dataset is modelled as an association-list store of
variables (each a shape plus an attribute mapping) together with a global
attribute mapping.  Python's `str.split`, `str.endswith` and slicing
`key[:-6]` are modelled over the character list of a `String` with
structural (fuel) recursion so that every function evaluates inside the
kernel on concrete inputs.
-/

namespace Satpy

/-! ### Python string primitives -/

/-- One step list of Python `s.split(sep)` for a non-empty separator:
scan left to right, cut at each non-overlapping occurrence of `sep`.
`fuel` bounds the recursion (the input length always suffices, since every
step consumes at least one character); `acc` holds the current piece
reversed. -/
def splitOnListGo (sep : List Char) : Nat → List Char → List Char → List (List Char)
  | _, [], acc => [acc.reverse]
  | 0, l, acc => [acc.reverse ++ l]
  | fuel + 1, c :: rest, acc =>
    if sep.isPrefixOf (c :: rest) then
      acc.reverse :: splitOnListGo sep fuel (List.drop (sep.length - 1) rest) []
    else
      splitOnListGo sep fuel rest (c :: acc)

/-- Python `s.split(sep)` for a non-empty separator `sep` (as used by
`key.split('/attr/')` in `NetCDF4FileHandler.__getitem__`).  In particular
Python's substring test `sep in s` is true exactly when the result has at
least two pieces. -/
def pySplit (s sep : String) : List String :=
  (splitOnListGo sep.data s.data.length s.data []).map String.mk

/-- Python `s.endswith(sfx)`. -/
def pyEndsWith (s sfx : String) : Bool :=
  sfx.data.isSuffixOf s.data

/-- Python slicing `s[:-n]` for `0 < n ≤ len(s)` (as in `key[:-6]`). -/
def pyDropRight (s : String) (n : Nat) : String :=
  String.mk (s.data.take (s.data.length - n))

/-! ### Data model: the hierarchical container behind `self.file_handle` -/

/-- First-match lookup in an association list, modelling Python mapping
subscription `m[k]` / `m.get(k)` (keys of a Python dict are unique, so
first match is the match). -/
def lookup {β : Type} : List (String × β) → String → Option β
  | [], _ => none
  | (k, v) :: rest, key => if k = key then some v else lookup rest key

/-- A variable of the container: a labeled multidimensional array, of which
we keep the ordered dimension sizes (`.shape`) and the attribute mapping
(`.attrs`); attribute values are drawn from an opaque type `α`. -/
structure NcVariable (α : Type) where
  shape : List Nat
  attrs : List (String × α)
  deriving DecidableEq

/-- The container (`self.file_handle`, an opened dataset): root-level
(global) attributes plus variables keyed by their full slash-delimited
path. -/
structure Dataset (α : Type) where
  attrs : List (String × α)
  vars : List (String × NcVariable α)
  deriving DecidableEq

/-- Errors raised by resolution: Python `KeyError` on a missing variable
path, `KeyError` on a missing attribute, and the `ValueError` raised by the
unpacking `var_name, attr_name = key.split('/attr/')` when the split does
not yield exactly two pieces. -/
inductive ResolveError where
  | variableNotFound : String → ResolveError
  | attributeNotFound : String → ResolveError
  | valueError : ResolveError
  deriving DecidableEq

/-- A resolved value: an attribute value, a variable, a shape tuple, or the
whole dataset (what the deprecated `/dtype` branch returns). -/
inductive Value (α : Type) where
  | attr : α → Value α
  | var : NcVariable α → Value α
  | shape : List Nat → Value α
  | dataset : Dataset α → Value α
  deriving DecidableEq

/-! ### NetCDF4FileHandler -/

/-- The separator literal of the source: `'/attr/'`. -/
def attrSep : String := "/attr/"

/-- The suffix literal `'/shape'`. -/
def shapeSfx : String := "/shape"

/-- The suffix literal `'/dtype'`. -/
def dtypeSfx : String := "/dtype"

/-- The deprecation message of the `/shape` branch. -/
def shapeWarn : String := "Deprecated use of var_name/shape in file handler."

/-- The deprecation message of the `/dtype` branch. -/
def dtypeWarn : String := "Deprecated use of var_name/dtype in file handler."

/-- The attribute branch of `__getitem__` (lines 87-92): given the two
pieces of the split, an empty `var_name` reads the global attribute
`self.file_handle.attrs[attr_name]`, a non-empty one reads
`self.file_handle[var_name].attrs[attr_name]`; each missing key is the
corresponding `KeyError`. -/
def attrAccess {α : Type} (fh : Dataset α) (varName attrName : String) :
    Except ResolveError (Value α) :=
  if varName = "" then
    match lookup fh.attrs attrName with
    | some v => .ok (.attr v)
    | none => .error (.attributeNotFound attrName)
  else
    match lookup fh.vars varName with
    | none => .error (.variableNotFound varName)
    | some vr =>
      match lookup vr.attrs attrName with
      | some v => .ok (.attr v)
      | none => .error (.attributeNotFound attrName)

/-- `NetCDF4FileHandler.__getitem__` (lines 86-100), together with the list
of warning messages it emits.  `if '/attr/' in key` is the two-or-more
pieces case of the split; `var_name, attr_name = key.split('/attr/')` then
raises `ValueError` unless the split has exactly two pieces. -/
def getItemW {α : Type} (fh : Dataset α) (key : String) :
    List String × Except ResolveError (Value α) :=
  match pySplit key attrSep with
  | [varName, attrName] => ([], attrAccess fh varName attrName)
  | [_] =>
    if pyEndsWith key shapeSfx then
      ([shapeWarn],
        match lookup fh.vars (pyDropRight key 6) with
        | some vr => .ok (.shape vr.shape)
        | none => .error (.variableNotFound (pyDropRight key 6)))
    else if pyEndsWith key dtypeSfx then
      ([dtypeWarn], .ok (.dataset fh))
    else
      match lookup fh.vars key with
      | some vr => ([], .ok (.var vr))
      | none => ([], .error (.variableNotFound key))
  | _ => ([], .error .valueError)

/-- The value (or error) computed by `__getitem__`, warnings dropped. -/
def getItem {α : Type} (fh : Dataset α) (key : String) :
    Except ResolveError (Value α) :=
  (getItemW fh key).2

/-- `NetCDF4FileHandler.__contains__` (lines 102-103): membership of `item`
among the container's variables (`item in self.file_handle`). -/
def containsKey {α : Type} (fh : Dataset α) (item : String) : Bool :=
  (lookup fh.vars item).isSome

/-- `NetCDF4FileHandler.get` (lines 105-106): `self.file_handle.get(item,
default)`, i.e. the underlying dataset's own mapping `get` — the whole
`item` string is looked up as a variable key, with no address parsing; a
missing key yields `default`. -/
def get {α : Type} (fh : Dataset α) (item : String) (default : Value α) :
    Value α :=
  match lookup fh.vars item with
  | some vr => .var vr
  | none => default

end Satpy

namespace HycL1

/-! ### HYCL1FileHandler.calibrate -/

/-- A data array handed to `calibrate`: a representative element value (the
element-wise arithmetic of the source acts uniformly) plus its attribute
mapping. -/
structure DataArr where
  values : Rat
  attrs : List (String × String)
  deriving DecidableEq

/-- The `ds_info` mapping fields that `calibrate` reads. -/
structure DsInfo where
  calibration : String
  name : String
  units : String
  deriving DecidableEq

/-- The handler state `calibrate` reads: the four global attributes
`ScaleFactor_Vnir`, `Offset_Vnir`, `ScaleFactor_Swir`, `Offset_Swir`. -/
structure HYCL1FileHandler where
  scaleFactorVnir : Rat
  offsetVnir : Rat
  scaleFactorSwir : Rat
  offsetSwir : Rat
  deriving DecidableEq

/-- Errors of `calibrate`: the explicit `ValueError` of the final `else`
branch, and the `NameError` reached when `calibration == 'radiance'` but
`ds_info['name']` is neither `'vnir'` nor `'swir'` (then `calibrated_data`
is never bound and the later `calibrated_data.attrs` access fails). -/
inductive CalibError where
  | valueErrorUnknown : String → CalibError
  | nameErrorUnbound : CalibError
  deriving DecidableEq

/-- Python dict assignment `d[k] = v` on an association list: replace the
first binding of `k`, or append one. -/
def setItem : List (String × String) → String → String → List (String × String)
  | [], k, v => [(k, v)]
  | (k', v') :: rest, k, v =>
    if k' = k then (k, v) :: rest else (k', v') :: setItem rest k v

/-- The literal `'counts'`. -/
def countsStr : String := "counts"

/-- The literal `'radiance'`. -/
def radianceStr : String := "radiance"

/-- The literal `'vnir'`. -/
def vnirStr : String := "vnir"

/-- The literal `'swir'`. -/
def swirStr : String := "swir"

/-- The attribute key `'units'`. -/
def unitsKey : String := "units"

/-- `HYCL1FileHandler.calibrate` (lines 123-143): dispatch on
`ds_info['calibration']`; `'counts'` keeps the data, `'radiance'` applies
`data / scale - offset` with the scale/offset of the named detector, and
anything else raises `ValueError`; on success the `'units'` attribute is
set from `ds_info['units']`. -/
def calibrate (h : HYCL1FileHandler) (data : DataArr) (dsInfo : DsInfo) :
    Except CalibError DataArr :=
  if dsInfo.calibration = countsStr then
    .ok { data with attrs := setItem data.attrs unitsKey dsInfo.units }
  else if dsInfo.calibration = radianceStr then
    if dsInfo.name = vnirStr then
      let cd : DataArr :=
        { data with values := data.values / h.scaleFactorVnir - h.offsetVnir }
      .ok { cd with attrs := setItem cd.attrs unitsKey dsInfo.units }
    else if dsInfo.name = swirStr then
      let cd : DataArr :=
        { data with values := data.values / h.scaleFactorSwir - h.offsetSwir }
      .ok { cd with attrs := setItem cd.attrs unitsKey dsInfo.units }
    else .error .nameErrorUnbound
  else .error (.valueErrorUnknown dsInfo.calibration)

end HycL1

open Satpy HycL1

/-! ### Helper lemmas -/

/-- An attribute access returns, when it succeeds, an attribute value —
never a shape, a variable, or the whole dataset. -/
theorem attrAccess_ok_is_attr {α : Type} (fh : Dataset α) (v a : String)
    (w : Value α) (h : attrAccess fh v a = .ok w) : ∃ x, w = .attr x := by
  unfold attrAccess at h
  split at h
  · split at h
    · rename_i x hx
      injection h with h2
      exact ⟨x, h2.symm⟩
    · simp at h
  · split at h
    · simp at h
    · split at h
      · rename_i x hx
        injection h with h2
        exact ⟨x, h2.symm⟩
      · simp at h

/-! ### Fixtures for counterexamples and witnesses -/

/-- A variable named `a` carrying an attribute literally named `b/attr/c`. -/
def varA : NcVariable String := ⟨[1], [("b/attr/c", "v")]⟩

/-- Container with the single variable `a`. -/
def dsA : Dataset String := ⟨[], [("a", varA)]⟩

/-- Address with two occurrences of `/attr/`. -/
def keyAttrTwice : String := "a/attr/b/attr/c"


/-- A second container: one global attribute and one variable `g/v`. -/
def varGV : NcVariable String := ⟨[2, 3], [("units", "m")]⟩

/-- Container with global attribute `platform` and variable `g/v`. -/
def dsB : Dataset String := ⟨[("platform", "PRISMA")], [("g/v", varGV)]⟩

/-- The plain variable address `g/v`. -/
def keyGV : String := "g/v"

/-- The single-occurrence attribute address `g/v/attr/units`. -/
def keyGVUnits : String := "g/v/attr/units"

/-! ### C1 -/

/-- Claim C1 (amended): an address whose split on `/attr/` yields exactly
two pieces proceeds to the attribute lookup on those pieces; an address
with two or more occurrences of `/attr/` (three or more pieces) makes the
tuple unpacking raise `ValueError` instead of proceeding to any attribute
lookup — the split is not a first-occurrence split. -/
theorem c1_split_exactly_once_or_error {α : Type} (fh : Dataset α)
    (key v a : String) (rest : List String)
    (h : pySplit key attrSep = v :: a :: rest) :
    getItem fh key =
      if rest = [] then attrAccess fh v a else .error .valueError := by
  unfold getItem getItemW
  rw [h]
  cases rest with
  | nil => rfl
  | cons r rs => rfl

/-- Claim C1 counterexample: in the container whose variable `a` carries an
attribute literally named `b/attr/c` (so a first-occurrence split would
find it), the address `a/attr/b/attr/c` resolves to the unpacking
`ValueError`, not to any attribute lookup. -/
theorem c1_counterexample :
    getItem dsA keyAttrTwice = .error .valueError ∧
    lookup dsA.vars ("a") = some varA ∧
    lookup varA.attrs ("b/attr/c") = some ("v") :=
  ⟨rfl, rfl, rfl⟩

/-- Claim C1 witness: the amended theorem applied to the concrete address
`a/attr/b/attr/c`, whose split has three pieces. -/
theorem c1_witness :
    pySplit keyAttrTwice attrSep = ["a", "b", "c"] ∧
    getItem dsA keyAttrTwice =
      (if (["c"] : List String) = [] then attrAccess dsA ("a") ("b")
       else .error .valueError) :=
  ⟨rfl, c1_split_exactly_once_or_error dsA keyAttrTwice ("a") ("b") (["c"]) rfl⟩

/-! ### C2 -/

/-- Claim C2: for an address containing `/attr/` exactly once, an empty
part before `/attr/` resolves the root-level (global) attribute (missing
attribute: attribute-not-found); a non-empty part resolves that variable's
attribute (missing variable: variable-not-found; present variable with
missing attribute: attribute-not-found). -/
theorem c2_single_attr_occurrence_cases {α : Type} (fh : Dataset α)
    (key v a : String) (h : pySplit key attrSep = [v, a]) :
    getItem fh key =
      if v = "" then
        match lookup fh.attrs a with
        | some x => .ok (.attr x)
        | none => .error (.attributeNotFound a)
      else
        match lookup fh.vars v with
        | none => .error (.variableNotFound v)
        | some vr =>
          match lookup vr.attrs a with
          | some x => .ok (.attr x)
          | none => .error (.attributeNotFound a) := by
  unfold getItem getItemW
  rw [h]
  rfl

/-- Claim C2 witness: the theorem applied to `g/v/attr/units`, evaluating
to the attribute value `m` of the variable `g/v`. -/
theorem c2_witness :
    pySplit keyGVUnits attrSep = ["g/v", "units"] ∧
    getItem dsB keyGVUnits = .ok (.attr ("m")) :=
  ⟨rfl, (c2_single_attr_occurrence_cases dsB keyGVUnits ("g/v") ("units") rfl).trans rfl⟩

/-! ### C3 -/

/-- The empty container. -/
def dsEmpty : Dataset String := ⟨[], []⟩

/-- The address `y/dtype`: no `/attr/`, does not end in `/shape`. -/
def keyYDtype : String := "y/dtype"

/-- Claim C3 (amended): an address with no `/attr/` that ends neither in
`/shape` nor in `/dtype` is treated as a slash-delimited variable path and
returns the variable of a direct container lookup, failing with
variable-not-found when no such path exists. -/
theorem c3_plain_variable_path {α : Type} (fh : Dataset α) (key : String)
    (h1 : (pySplit key attrSep).length = 1)
    (h2 : pyEndsWith key shapeSfx = false)
    (h3 : pyEndsWith key dtypeSfx = false) :
    getItem fh key =
      match lookup fh.vars key with
      | some vr => .ok (.var vr)
      | none => .error (.variableNotFound key) := by
  unfold getItem getItemW
  cases hsp : pySplit key attrSep with
  | nil => rw [hsp] at h1; simp at h1
  | cons hd tl =>
    cases tl with
    | nil =>
      simp only [h2, h3, Bool.false_eq_true, if_false]
      cases hv : lookup fh.vars key <;> rfl
    | cons hd2 tl2 =>
      rw [hsp] at h1
      simp [List.length] at h1

/-- Claim C3 counterexample: the address `y/dtype` contains no `/attr/`
and does not end in `/shape`, and no such variable path exists in the
empty container; yet resolution returns the whole dataset instead of
failing with variable-not-found. -/
theorem c3_counterexample :
    lookup dsEmpty.vars keyYDtype = none ∧
    getItem dsEmpty keyYDtype = .ok (.dataset dsEmpty) :=
  ⟨rfl, rfl⟩

/-- Claim C3 witness: the amended theorem applied to the plain variable
path `g/v`, which resolves to the variable itself. -/
theorem c3_witness :
    (pySplit keyGV attrSep).length = 1 ∧
    pyEndsWith keyGV shapeSfx = false ∧
    pyEndsWith keyGV dtypeSfx = false ∧
    getItem dsB keyGV = .ok (.var varGV) :=
  ⟨rfl, rfl, rfl, (c3_plain_variable_path dsB keyGV rfl rfl rfl).trans rfl⟩

/-! ### C4 -/

/-- Variable `a` carrying an attribute literally named `b/attr/shape`. -/
def varA4 : NcVariable String := ⟨[1], [("b/attr/shape", "w")]⟩

/-- Container with the single variable `a` (for the C4 counterexample). -/
def dsC4 : Dataset String := ⟨[], [("a", varA4)]⟩

/-- Address with two occurrences of `/attr/`, ending in `/shape`. -/
def keyAttrShapeTwice : String := "a/attr/b/attr/shape"

/-- Address with one occurrence of `/attr/`, ending in `/shape`. -/
def keyVarAttrShape : String := "var/attr/shape"

/-- Claim C4 (amended): for an address containing `/attr/` exactly once
and ending in `/shape`, the `/attr/` case takes precedence — it is parsed
as the attribute lookup of the piece after `/attr/` on the piece before
it, and is never a shape result and never a plain-variable result.  (An
address with two or more occurrences of `/attr/` instead fails with the
unpacking `ValueError`, again never reaching the shape branch.) -/
theorem c4_attr_precedence {α : Type} (fh : Dataset α) (key v a : String)
    (h1 : pySplit key attrSep = [v, a])
    (_h2 : pyEndsWith key shapeSfx = true) :
    getItem fh key = attrAccess fh v a ∧
    (∀ s : List Nat, ¬ getItem fh key = Except.ok (Value.shape s)) ∧
    (∀ vr : NcVariable α, ¬ getItem fh key = Except.ok (Value.var vr)) := by
  have hmain : getItem fh key = attrAccess fh v a := by
    unfold getItem getItemW
    rw [h1]
  refine ⟨hmain, ?_, ?_⟩
  · intro s hc
    rw [hmain] at hc
    obtain ⟨x, hx⟩ := attrAccess_ok_is_attr fh v a _ hc
    simp at hx
  · intro vr hc
    rw [hmain] at hc
    obtain ⟨x, hx⟩ := attrAccess_ok_is_attr fh v a _ hc
    simp at hx

/-- Claim C4 counterexample: the address `a/attr/b/attr/shape` both
contains `/attr/` and ends with `/shape`, and the variable `a` carries an
attribute literally named `b/attr/shape`; yet resolution raises the
unpacking `ValueError` instead of performing that attribute lookup. -/
theorem c4_counterexample :
    getItem dsC4 keyAttrShapeTwice = .error .valueError ∧
    lookup dsC4.vars ("a") = some varA4 ∧
    lookup varA4.attrs ("b/attr/shape") = some ("w") :=
  ⟨rfl, rfl, rfl⟩

/-- Claim C4 witness: the amended theorem applied to `var/attr/shape`,
parsed as the attribute `shape` of the variable `var`. -/
theorem c4_witness :
    pySplit keyVarAttrShape attrSep = ["var", "shape"] ∧
    pyEndsWith keyVarAttrShape shapeSfx = true ∧
    getItem dsB keyVarAttrShape = attrAccess dsB ("var") ("shape") :=
  ⟨rfl, rfl, (c4_attr_precedence dsB keyVarAttrShape ("var") ("shape") rfl rfl).1⟩

/-! ### C5 -/

/-- The deprecated shape address `g/v/shape`. -/
def keyGVShape : String := "g/v/shape"

/-- Claim C5: an address with no `/attr/` that ends in `/shape` strips the
suffix, resolves the remainder as a variable, and returns its ordered
dimension-size sequence (variable-not-found when the remainder is absent),
while emitting the deprecation notice; the value is the shape of the
directly looked-up variable, independent of the notice. -/
theorem c5_shape_suffix {α : Type} (fh : Dataset α) (key : String)
    (h1 : (pySplit key attrSep).length = 1)
    (h2 : pyEndsWith key shapeSfx = true) :
    getItemW fh key =
      ([shapeWarn],
        match lookup fh.vars (pyDropRight key 6) with
        | some vr => .ok (.shape vr.shape)
        | none => .error (.variableNotFound (pyDropRight key 6))) := by
  unfold getItemW
  cases hsp : pySplit key attrSep with
  | nil => rw [hsp] at h1; simp at h1
  | cons hd tl =>
    cases tl with
    | nil =>
      simp only [h2, if_true]
    | cons hd2 tl2 =>
      rw [hsp] at h1
      simp [List.length] at h1

/-- Claim C5 witness: the theorem applied to `g/v/shape`, which emits the
notice and evaluates to the shape `[2, 3]` of the variable `g/v`. -/
theorem c5_witness :
    (pySplit keyGVShape attrSep).length = 1 ∧
    pyEndsWith keyGVShape shapeSfx = true ∧
    pyDropRight keyGVShape 6 = keyGV ∧
    getItemW dsB keyGVShape = ([shapeWarn], .ok (.shape [2, 3])) :=
  ⟨rfl, rfl, rfl, (c5_shape_suffix dsB keyGVShape rfl rfl).trans rfl⟩

/-! ### C6 -/

/-- Variable `v` carrying the attribute `a`. -/
def varV : NcVariable String := ⟨[1], [("a", "x")]⟩

/-- Container with the single variable `v` (for C6). -/
def dsC6 : Dataset String := ⟨[], [("v", varV)]⟩

/-- The attribute address `v/attr/a` (attribute present). -/
def keyVAttrA : String := "v/attr/a"

/-- The attribute address `v/attr/nope` (attribute absent). -/
def keyVAttrNope : String := "v/attr/nope"

/-- Claim C6 (amended): `get` hands the whole address to the underlying
dataset's own mapping lookup with no address parsing: it returns the
variable when the full address string is present as a variable key and the
supplied default otherwise; it never performs attribute resolution, so it
never raises an attribute-not-found error — every `/attr/` address whose
full string is not itself a variable key returns the default. -/
theorem c6_get_defaults_only_missing_variables {α : Type} (fh : Dataset α)
    (item : String) (d : Value α) :
    (∀ vr, lookup fh.vars item = some vr → Satpy.get fh item d = .var vr) ∧
    (lookup fh.vars item = none → Satpy.get fh item d = d) := by
  constructor
  · intro vr h
    unfold Satpy.get
    rw [h]
  · intro h
    unfold Satpy.get
    rw [h]

/-- Claim C6 counterexample: in the container whose variable `v` has
attribute `a`, the address `v/attr/a` resolves (to the attribute value
`x`), yet `get` returns the default; and for `v/attr/nope` — variable
present, attribute absent — `get` returns the default instead of raising
attribute-not-found. -/
theorem c6_counterexample :
    getItem dsC6 keyVAttrA = .ok (.attr ("x")) ∧
    Satpy.get dsC6 keyVAttrA (Value.attr ("z")) = Value.attr ("z") ∧
    lookup varV.attrs ("nope") = none ∧
    Satpy.get dsC6 keyVAttrNope (Value.attr ("z")) = Value.attr ("z") :=
  ⟨rfl, rfl, rfl, rfl⟩

/-- Claim C6 witness: the amended theorem applied to the address
`v/attr/nope`, absent as a variable key, so `get` yields the default. -/
theorem c6_witness :
    lookup dsC6.vars keyVAttrNope = none ∧
    Satpy.get dsC6 keyVAttrNope (Value.attr ("z")) = Value.attr ("z") :=
  ⟨rfl, (c6_get_defaults_only_missing_variables dsC6 keyVAttrNope (Value.attr ("z"))).2 rfl⟩

/-! ### C7 -/

/-- The deprecated dtype address `x/dtype`. -/
def keyXDtype : String := "x/dtype"

/-- Claim C7: an address with no `/attr/`, not ending in `/shape` but
ending in `/dtype`, returns the whole dataset object itself — not the
variable and not an element type — after emitting the deprecation notice
(the latent defect flagged by the spec is the actual behaviour). -/
theorem c7_dtype_returns_dataset {α : Type} (fh : Dataset α) (key : String)
    (h1 : (pySplit key attrSep).length = 1)
    (h2 : pyEndsWith key dtypeSfx = true)
    (h3 : pyEndsWith key shapeSfx = false) :
    getItemW fh key = ([dtypeWarn], .ok (.dataset fh)) := by
  unfold getItemW
  cases hsp : pySplit key attrSep with
  | nil => rw [hsp] at h1; simp at h1
  | cons hd tl =>
    cases tl with
    | nil =>
      simp only [h3, Bool.false_eq_true, if_false, h2, if_true]
    | cons hd2 tl2 =>
      rw [hsp] at h1
      simp [List.length] at h1

/-- Claim C7 witness: the theorem applied to `x/dtype` over a concrete
container, returning that whole container. -/
theorem c7_witness :
    (pySplit keyXDtype attrSep).length = 1 ∧
    pyEndsWith keyXDtype dtypeSfx = true ∧
    pyEndsWith keyXDtype shapeSfx = false ∧
    getItemW dsB keyXDtype = ([dtypeWarn], .ok (.dataset dsB)) :=
  ⟨rfl, rfl, rfl, c7_dtype_returns_dataset dsB keyXDtype rfl rfl rfl⟩

/-! ### C8 -/

/-- Claim C8: the membership test is a total boolean function — it is true
exactly when the address is present as a variable path in the container,
and being `Bool`-valued it never raises. -/
theorem c8_contains_total {α : Type} (fh : Dataset α) (item : String) :
    containsKey fh item = true ↔ ∃ vr, lookup fh.vars item = some vr := by
  unfold containsKey
  cases h : lookup fh.vars item <;> simp [h]

/-! ### C9 -/

/-- Claim C9: resolution, membership and get-with-default are pure
functions of the pair (container, address): equal containers and equal
addresses give equal results (including emitted warnings), and no
operation returns a modified container. -/
theorem c9_resolution_pure {α : Type} (fh fh' : Dataset α)
    (key key' item item' : String) (d d' : Value α)
    (hfh : fh = fh') (hk : key = key') (hi : item = item') (hd : d = d') :
    getItemW fh key = getItemW fh' key' ∧
    containsKey fh item = containsKey fh' item' ∧
    Satpy.get fh item d = Satpy.get fh' item' d' := by
  subst hfh
  subst hk
  subst hi
  subst hd
  exact ⟨rfl, rfl, rfl⟩

/-- Claim C9 witness: two calls with the same concrete container and
addresses return equal values. -/
theorem c9_witness :
    getItemW dsB keyGVUnits = getItemW dsB keyGVUnits ∧
    containsKey dsB keyGV = containsKey dsB keyGV ∧
    Satpy.get dsB keyGV (Value.attr ("z")) = Satpy.get dsB keyGV (Value.attr ("z")) :=
  c9_resolution_pure dsB dsB keyGVUnits keyGVUnits keyGV keyGV
    (Value.attr ("z")) (Value.attr ("z")) rfl rfl rfl rfl

/-! ### C10 -/

/-- Claim C10: `calibrate` with a calibration that is neither `counts` nor
`radiance` raises the unknown-calibration error and never returns data;
with `counts` it returns the input data unchanged except that the `units`
attribute is set from `ds_info['units']`. -/
theorem c10_calibrate_dispatch (h : HYCL1FileHandler) (data : DataArr)
    (dsInfo : DsInfo) :
    (dsInfo.calibration ≠ countsStr → dsInfo.calibration ≠ radianceStr →
      calibrate h data dsInfo = .error (.valueErrorUnknown dsInfo.calibration)) ∧
    (dsInfo.calibration = countsStr →
      calibrate h data dsInfo =
        .ok ⟨data.values, setItem data.attrs unitsKey dsInfo.units⟩) := by
  constructor
  · intro hc hr
    unfold calibrate
    rw [if_neg hc, if_neg hr]
  · intro hc
    unfold calibrate
    rw [if_pos hc]

/-- A dataset-info asking for the unimplemented reflectance calibration. -/
def dsInfoRefl : DsInfo := ⟨"reflectance", "vnir", "1"⟩

/-- A dataset-info asking for counts. -/
def dsInfoCounts : DsInfo := ⟨"counts", "vnir", "DN"⟩

/-- A concrete handler state. -/
def h0 : HYCL1FileHandler := ⟨2, 1, 4, 3⟩

/-- A concrete data array. -/
def data0 : DataArr := ⟨10, [("long_name", "vnir")]⟩

/-- Claim C10 witness: the theorem applied to a `reflectance` request
(error) and to a `counts` request (data kept, `units` attribute added). -/
theorem c10_witness :
    dsInfoRefl.calibration = ("reflectance") ∧
    calibrate h0 data0 dsInfoRefl = .error (.valueErrorUnknown ("reflectance")) ∧
    dsInfoCounts.calibration = countsStr ∧
    calibrate h0 data0 dsInfoCounts =
      .ok ⟨10, [("long_name", "vnir"), ("units", "DN")]⟩ := by
  refine ⟨rfl, ?_, rfl, ?_⟩
  · exact ((c10_calibrate_dispatch h0 data0 dsInfoRefl).1 (by decide) (by decide)).trans rfl
  · exact ((c10_calibrate_dispatch h0 data0 dsInfoCounts).2 rfl).trans rfl
